import Mathlib

/-!
Verification development for the face_auth repository
(src/face_auth/api/face.py).

The Python module implements face registration, update, reset,
verification with geofenced check-in, and shift-window resolution on top
of the frappe framework.  This file gives a shallow embedding of that
module and proves the specified properties about it.

Modelling conventions:
* frappe database state (Employee documents, File attachments, Employee
  Checkin records, Shift Type documents) is an explicit `DB` record that
  every operation threads through.
* form values are `Option` fields; `none` stands for an absent or empty
  (hence Python-falsy) form value.  Numeric document fields are `Option ℚ`
  (exact rationals idealize Python floats); `Employee.get(field, default)`
  on an unset field is modelled by `Option.getD`.
* images are `Img` records carrying the geometric data the normalizer
  manipulates (dimensions, EXIF orientation code, color mode, accumulated
  rotation) plus a `corrupt` flag standing for a PIL decode failure.
* the external face_recognition encoder is a parameter
  `enc : Img → List Emb`; `face_distance` is modelled from the library
  semantics (numpy Euclidean norm).
* real-number formulas (haversine, Euclidean embedding distance, the 0.5
  threshold comparison, decimal rounding) are embedded over `ℝ`.
-/

namespace FaceAuth

/-- Raw face embedding vector (numpy array of floats). -/
abbrev Emb := List ℝ

/-- External collaborator face_recognition.face_distance: the Euclidean
norm of the difference of the two embedding vectors. -/
noncomputable def face_distance (a b : Emb) : ℝ :=
  Real.sqrt (((a.zip b).map (fun p => (p.1 - p.2) ^ 2)).sum)

/-- math.radians: degrees to radians. -/
noncomputable def radians (x : ℝ) : ℝ := x * Real.pi / 180

/-- calculate_distance (face.py lines 10-24): haversine great-circle
distance between two points given in decimal degrees, on a sphere of
radius 6371 km.  The source computes
a = sin(dlat/2)^2 + cos(lat1)*cos(lat2)*sin(dlon/2)^2 and returns
2*asin(sqrt(a))*6371. -/
noncomputable def calculate_distance (lat1 lon1 lat2 lon2 : ℝ) : ℝ :=
  2 * Real.arcsin (Real.sqrt
    (Real.sin ((radians lat2 - radians lat1) / 2) ^ 2 +
      Real.cos (radians lat1) * Real.cos (radians lat2) *
        Real.sin ((radians lon2 - radians lon1) / 2) ^ 2)) * 6371

/-- Python round() rounds half to even (bankers rounding); integer result. -/
noncomputable def round_half_even (x : ℝ) : ℤ :=
  if Int.fract x < 1 / 2 then Int.floor x
  else if 1 / 2 < Int.fract x then Int.floor x + 1
  else if Int.floor x % 2 = 0 then Int.floor x else Int.floor x + 1

/-- Python round(x, n): round to n decimal places, half to even. -/
noncomputable def roundTo (n : ℕ) (x : ℝ) : ℝ :=
  (round_half_even (x * 10 ^ n) : ℝ) / 10 ^ n

/-- Image state as manipulated by PIL in correct_image_orientation.
`rotation` records the net counterclockwise rotation applied so far
(degrees, mod 360); `corrupt` stands for a decode/processing error. -/
structure Img where
  width : Nat
  height : Nat
  exif_orientation : Option Nat
  mode : String
  rotation : Nat
  corrupt : Bool
  deriving DecidableEq

/-- PIL Image.rotate(angle, expand=True): counterclockwise rotation; a
90 or 270 degree rotation swaps width and height. -/
def rotateImg (angle : Nat) (img : Img) : Img :=
  if angle % 180 = 90 then
    { img with width := img.height, height := img.width,
               rotation := (img.rotation + angle) % 360 }
  else
    { img with rotation := (img.rotation + angle) % 360 }

/-- EXIF orientation handling (face.py lines 49-65): code 3 rotates by
180 degrees, code 6 by 270, code 8 by 90; any other code (or no EXIF
data) leaves the image as is. -/
def applyExif (img : Img) : Img :=
  match img.exif_orientation with
  | some 3 => rotateImg 180 img
  | some 6 => rotateImg 270 img
  | some 8 => rotateImg 90 img
  | _ => img

/-- Resize step (face.py lines 67-72): if the longer dimension exceeds
1200 px, scale both dimensions by 1200 / max(size).  Python
int(dim * ratio) truncates, which on nonnegative exact arithmetic is
natural-number division dim * 1200 / max. -/
def resizeLarge (img : Img) : Img :=
  if 1200 < max img.width img.height then
    { img with width := img.width * 1200 / max img.width img.height,
               height := img.height * 1200 / max img.width img.height }
  else img

/-- Color conversion step (face.py lines 74-76): convert to RGB if the
mode differs. -/
def forceRGB (img : Img) : Img :=
  if img.mode ≠ "RGB" then { img with mode := "RGB" } else img

/-- correct_image_orientation (face.py lines 44-83): EXIF rotation, then
downscale of oversized images, then RGB conversion; any processing
exception makes the function report failure (modelled by `none`). -/
def correct_image_orientation (img : Img) : Option Img :=
  if img.corrupt then none
  else some (forceRGB (resizeLarge (applyExif img)))

/-- Hour / minute / second of day, as stored on a frappe Shift Type.
The source compares shift times through their zero-padded "HH:mm:ss"
strings, which for valid times is the numeric order on total seconds. -/
structure Tm where
  hh : Nat
  mm : Nat
  ss : Nat
  deriving DecidableEq

/-- Total seconds of day (the order used on formatted time strings). -/
def Tm.toSecs (t : Tm) : Nat := t.hh * 3600 + t.mm * 60 + t.ss

/-- Calendar date (Gregorian), for datetime.strptime / timedelta math. -/
structure Date where
  year : Nat
  month : Nat
  day : Nat
  deriving DecidableEq

def isLeapYear (y : Nat) : Bool :=
  (y % 4 == 0 && y % 100 != 0) || y % 400 == 0

def daysInMonth (y m : Nat) : Nat :=
  if m = 2 then (if isLeapYear y then 29 else 28)
  else if m = 4 ∨ m = 6 ∨ m = 9 ∨ m = 11 then 30
  else 31

/-- datetime + timedelta(days=1). -/
def nextDay (d : Date) : Date :=
  if d.day < daysInMonth d.year d.month then ⟨d.year, d.month, d.day + 1⟩
  else if d.month < 12 then ⟨d.year, d.month + 1, 1⟩
  else ⟨d.year + 1, 1, 1⟩

abbrev DateTime := Date × Tm

/-- Shift Type document fields used by get_shift_time_range. -/
structure ShiftType where
  is_night_shift : Bool
  start_time : Option Tm
  end_time : Option Tm
  deriving DecidableEq

/-- Employee document: the fields face.py reads or writes.  Unset
numeric or text fields are `none`. -/
structure Employee where
  name : String
  first_name : Option String := none
  middle_name : Option String := none
  last_name : Option String := none
  gender : Option String := none
  date_of_birth : Option String := none
  date_of_joining : Option String := none
  status : Option String := none
  company : Option String := none
  designation : Option String := none
  department : Option String := none
  embedding_json : Option String := none
  radius_meters : Option String := none
  office_latitude : Option ℚ := none
  office_longitude : Option ℚ := none
  geofence_radius : Option ℚ := none
  shift : Option String := none
  face_registered : Nat := 0
  deriving DecidableEq

/-- File document attached to an Employee; `content` is the stored
(normalized) image. -/
structure FileDoc where
  name : String
  file_name : String
  attached_to_doctype : String
  attached_to_name : String
  content : Img
  deriving DecidableEq

/-- Employee Checkin record created by match_face. -/
structure Checkin where
  name : String
  employee : String
  device_id : Option String
  latitude : ℚ
  longitude : ℚ
  distance_from_office : ℝ
  confidence : ℝ

/-- The frappe database state threaded through every operation.
`next_id` feeds frappe document auto-naming. -/
structure DB where
  employees : List Employee
  files : List FileDoc
  checkins : List Checkin
  shift_types : List (String × ShiftType)
  next_id : Nat

/-- frappe.get_doc("Employee", eid) / frappe.db.exists lookup. -/
def findEmployee (db : DB) (eid : String) : Option Employee :=
  db.employees.find? (fun e => e.name == eid)

/-- Is this File attached to the given Employee? -/
def attachedToEmployee (eid : String) (f : FileDoc) : Bool :=
  f.attached_to_doctype == "Employee" && f.attached_to_name == eid

/-- frappe.get_all("File", attached_to_doctype="Employee",
attached_to_name=eid), in creation order. -/
def attachmentsOf (db : DB) (eid : String) : List FileDoc :=
  db.files.filter (attachedToEmployee eid)

/-- get_employee_reference_image (face.py lines 102-117):
frappe.get_last_doc returns the most recently created matching File,
or None (DoesNotExistError) when there is none. -/
def get_employee_reference_image (db : DB) (eid : String) : Option FileDoc :=
  (attachmentsOf db eid).getLast?

/-- Python truthiness of an optional numeric field: None and 0 are
falsy. -/
def falsyNum (q : Option ℚ) : Bool :=
  match q with
  | none => true
  | some x => x == 0

/-- get_office_coordinates (face.py lines 26-42): reads office_latitude,
office_longitude and geofence_radius (defaulting to 0.5 km when the
field is not set) from the Employee; a missing employee raises and is
caught, and a falsy latitude or longitude reports coordinates-not-set;
both failure modes return (None, None, None), modelled as `none`. -/
def get_office_coordinates (db : DB) (eid : String) : Option (ℚ × ℚ × ℚ) :=
  match findEmployee db eid with
  | none => none
  | some e =>
    let radius := e.geofence_radius.getD (1 / 2)
    if falsyNum e.office_latitude || falsyNum e.office_longitude then none
    else some (e.office_latitude.getD 0, e.office_longitude.getD 0, radius)

/-- get_shift_time_range (face.py lines 201-238, the active revision):
default 09:00-18:00 window when the employee has no shift (or does not
exist, since frappe.get_value then returns None); otherwise the Shift
Type document is loaded (a missing document raises, modelled `none`),
missing start/end times default to 09:00:00 / 18:00:00, and the end
timestamp moves to the next day when the shift is flagged as a night
shift or its end time-of-day is earlier than its start time-of-day. -/
def get_shift_time_range (db : DB) (eid : String) (date : Date) :
    Option (DateTime × DateTime) :=
  match (findEmployee db eid).bind (fun e => e.shift) with
  | none => some ((date, ⟨9, 0, 0⟩), (date, ⟨18, 0, 0⟩))
  | some sname =>
    match db.shift_types.find? (fun p => p.1 == sname) with
    | none => none
    | some p =>
      let sh := p.2
      let st := sh.start_time.getD ⟨9, 0, 0⟩
      let en := sh.end_time.getD ⟨18, 0, 0⟩
      if sh.is_night_shift || decide (en.toSecs < st.toSecs) then
        some ((date, st), (nextDay date, en))
      else
        some ((date, st), (date, en))

/-- Top-level response payloads: either a plain message string or the
matched/reason object that update_face returns when the reference image
is missing. -/
inductive ApiMsg where
  | str (s : String)
  | matchedReason (matched : Bool) (reason : String)
  deriving DecidableEq

/-- Form payload of register_face (face.py lines 240-365).  Numeric
coordinates are the values as stored on the created Employee. -/
structure RegReq where
  first_name : Option String := none
  middle_name : Option String := none
  last_name : Option String := none
  gender : Option String := none
  date_of_birth : Option String := none
  date_of_joining : Option String := none
  status : Option String := none
  company : Option String := none
  designation : Option String := none
  department : Option String := none
  embedding_json : Option String := none
  radius_meters : Option String := none
  office_latitude : Option ℚ := none
  office_longitude : Option ℚ := none
  shift : Option String := none
  image : Option Img := none
  filename : String := ""

/-- register_face: the already-registered guard in the source is
commented out (face.py lines 266-275), so every call with a usable image
creates a brand-new Employee document (frappe auto-names it) with
face_registered = 1 and attaches the normalized image to it. -/
def register_face (enc : Img → List Emb) (db : DB) (req : RegReq) :
    ApiMsg × DB :=
  match req.image with
  | none => (.str "no_image_provided", db)
  | some img =>
    match correct_image_orientation img with
    | none => (.str "image_processing_failed", db)
    | some nimg =>
      if (enc nimg).isEmpty then (.str "no_face_detected", db)
      else
        let emp : Employee :=
          { name := "EMP-" ++ toString db.next_id,
            first_name := req.first_name, middle_name := req.middle_name,
            last_name := req.last_name, gender := req.gender,
            date_of_birth := req.date_of_birth,
            date_of_joining := req.date_of_joining, status := req.status,
            company := req.company, designation := req.designation,
            department := req.department,
            embedding_json := req.embedding_json,
            radius_meters := req.radius_meters,
            office_latitude := req.office_latitude,
            office_longitude := req.office_longitude,
            shift := req.shift, face_registered := 1 }
        let db1 : DB :=
          { db with employees := db.employees ++ [emp],
                    next_id := db.next_id + 1 }
        let fdoc : FileDoc :=
          { name := "FILE-" ++ toString db1.next_id,
            file_name := req.filename,
            attached_to_doctype := "Employee",
            attached_to_name := emp.name, content := nimg }
        let db2 : DB :=
          { db1 with files := db1.files ++ [fdoc],
                     next_id := db1.next_id + 1 }
        (.str "success", db2)

/-- The attachment-deletion loops of update_face (lines 442-453) and
reset_face_registration (lines 530-537): delete every File attached to
the Employee. -/
def removeAttachments (db : DB) (eid : String) : DB :=
  { db with files := db.files.filter (fun f => !attachedToEmployee eid f) }

/-- Form payload of update_face (face.py lines 367-506). -/
structure UpdReq where
  employee_id : Option String := none
  first_name : Option String := none
  middle_name : Option String := none
  last_name : Option String := none
  gender : Option String := none
  date_of_birth : Option String := none
  date_of_joining : Option String := none
  status : Option String := none
  company : Option String := none
  designation : Option String := none
  department : Option String := none
  embedding_json : Option String := none
  radius_meters : Option String := none
  office_latitude : Option ℚ := none
  office_longitude : Option ℚ := none
  shift : Option String := none
  image : Option Img := none
  filename : String := ""

/-- update_face: requires an existing reference image, validates the new
image (normalization and face detection) before touching stored state,
then deletes the old attachments and saves a brand-new Employee document
with the new image attached.  The temp-file cleanup block in the source
is attached to the final save try-block only, so none of the validation
failure exits reach it; every validation failure leaves the database
unchanged. -/
def update_face (enc : Img → List Emb) (db : DB) (req : UpdReq) :
    ApiMsg × DB :=
  match req.employee_id with
  | none => (.matchedReason false "reference_image_missing", db)
  | some eid =>
    match get_employee_reference_image db eid with
    | none => (.matchedReason false "reference_image_missing", db)
    | some _ =>
      match req.image with
      | none => (.str "no_image_provided", db)
      | some img =>
        match correct_image_orientation img with
        | none => (.str "image_processing_failed", db)
        | some nimg =>
          if (enc nimg).isEmpty then (.str "no_face_detected", db)
          else
            let db1 : DB := removeAttachments db eid
            let emp : Employee :=
              { name := "EMP-" ++ toString db1.next_id,
                first_name := req.first_name, middle_name := req.middle_name,
                last_name := req.last_name, gender := req.gender,
                date_of_birth := req.date_of_birth,
                date_of_joining := req.date_of_joining, status := req.status,
                company := req.company, designation := req.designation,
                department := req.department,
                embedding_json := req.embedding_json,
                radius_meters := req.radius_meters,
                office_latitude := req.office_latitude,
                office_longitude := req.office_longitude,
                shift := req.shift, face_registered := 1 }
            let db2 : DB :=
              { db1 with employees := db1.employees ++ [emp],
                         next_id := db1.next_id + 1 }
            let fdoc : FileDoc :=
              { name := "FILE-" ++ toString db2.next_id,
                file_name := req.filename,
                attached_to_doctype := "Employee",
                attached_to_name := emp.name, content := nimg }
            let db3 : DB :=
              { db2 with files := db2.files ++ [fdoc],
                         next_id := db2.next_id + 1 }
            (.str "updated", db3)

/-- frappe.db.set_value("Employee", eid, "face_registered", v). -/
def setFaceRegistered (db : DB) (eid : String) (v : Nat) : DB :=
  { db with employees :=
      (db.employees.map (fun e =>
        if e.name == eid then { e with face_registered := v } else e)) }

/-- reset_face_registration (face.py lines 508-541): invalid employee is
an error; otherwise the flag is cleared, and all attachments are deleted
(per-file logging failures in the source are swallowed by the inner
except and do not stop the loop); with no attachments the dedicated
success variant is returned.  The source clears the flag before querying
attachments; since the flag update does not touch File documents, the
attachment query is stated directly against the incoming state. -/
def reset_face_registration (db : DB) (eid : String) :
    (String × String) × DB :=
  if (findEmployee db eid).isNone then (("error", "invalid_employee_id"), db)
  else if (attachmentsOf db eid).isEmpty then
    (("success", "reset_but_no_attachments_found"), setFaceRegistered db eid 0)
  else
    (("success", "face_registration_reset_successfully"),
      removeAttachments (setFaceRegistered db eid 0) eid)

/-- Response object of match_face; fields not present in a given source
return dict are `none`. -/
structure MFResp where
  matched : Bool
  distance : Option ℝ := none
  confidence : Option ℝ := none
  reason : Option String := none
  error : Option String := none
  checkin_saved : Option Bool := none
  checkin_name : Option String := none
  distance_from_office : Option ℝ := none
  geofence_radius : Option ℝ := none

/-- Form payload of match_face (face.py lines 544-563).  `latitude` and
`longitude` are `some` exactly when a non-empty form value was supplied
(the source tests string truthiness before converting to float). -/
structure MFReq where
  employee_id : Option String := none
  latitude : Option ℚ := none
  longitude : Option ℚ := none
  device_id : Option String := none
  image : Option Img := none

/-- The Employee Checkin document inserted by match_face (face.py lines
670-683): location, rounded distance from office and rounded
confidence; the name comes from frappe auto-naming. -/
noncomputable def mkCheckin (db : DB) (req : MFReq) (eid : String)
    (lat lon : ℚ) (dko conf : ℝ) : Checkin :=
  { name := "CHK-" ++ toString db.next_id, employee := eid,
    device_id := req.device_id, latitude := lat, longitude := lon,
    distance_from_office := roundTo 3 dko, confidence := roundTo 1 conf }

/-- Evaluation and geofencing stage of match_face (face.py lines
612-719), reached once both the uploaded and the reference encodings
exist: distance, clamped confidence, the 0.5 threshold decision, then -
for a match with a supplied claimed location - the geofence check
against the office anchor, saving an Employee Checkin only inside the
radius. -/
noncomputable def match_eval_geo (db : DB) (req : MFReq) (eid : String)
    (up re : Emb) : MFResp × DB :=
  if face_distance re up ≤ 1 / 2 then
    match req.latitude, req.longitude with
    | some lat, some lon =>
      match get_office_coordinates db eid with
      | none =>
        ({ matched := true,
           distance := some (roundTo 4 (face_distance re up)),
           confidence :=
             some (roundTo 1 (max 0 (min 100 ((1 - face_distance re up) * 100)))),
           checkin_saved := some false,
           error := some "office_coordinates_not_set" }, db)
      | some (olat, olon, radius) =>
        if (radius : ℝ) <
            calculate_distance (lat : ℝ) (lon : ℝ) (olat : ℝ) (olon : ℝ) then
          ({ matched := true,
             distance := some (roundTo 4 (face_distance re up)),
             confidence :=
               some (roundTo 1 (max 0 (min 100 ((1 - face_distance re up) * 100)))),
             checkin_saved := some false,
             error := some "outside_geofence_radius",
             distance_from_office :=
               some (roundTo 3
                 (calculate_distance (lat : ℝ) (lon : ℝ) (olat : ℝ) (olon : ℝ))),
             geofence_radius := some (radius : ℝ) }, db)
        else
          ({ matched := true,
             distance := some (roundTo 4 (face_distance re up)),
             confidence :=
               some (roundTo 1 (max 0 (min 100 ((1 - face_distance re up) * 100)))),
             checkin_saved := some true,
             checkin_name := some ("CHK-" ++ toString db.next_id),
             distance_from_office :=
               some (roundTo 3
                 (calculate_distance (lat : ℝ) (lon : ℝ) (olat : ℝ) (olon : ℝ))),
             geofence_radius := some (radius : ℝ) },
           { db with
             checkins :=
               (db.checkins ++
                 [mkCheckin db req eid lat lon
                   (calculate_distance (lat : ℝ) (lon : ℝ) (olat : ℝ) (olon : ℝ))
                   (max 0 (min 100 ((1 - face_distance re up) * 100)))]),
             next_id := db.next_id + 1 })
    | _, _ =>
      ({ matched := true,
         distance := some (roundTo 4 (face_distance re up)),
         confidence :=
           some (roundTo 1 (max 0 (min 100 ((1 - face_distance re up) * 100)))) },
       db)
  else
    ({ matched := false,
       distance := some (roundTo 4 (face_distance re up)),
       confidence :=
         some (roundTo 1 (max 0 (min 100 ((1 - face_distance re up) * 100)))),
       reason := some "face_not_matching" }, db)

/-- match_face (face.py lines 544-732).  Note the source order: the
uploaded image is normalized and encoded first (lines 556-579); only
then is the reference image fetched (line 582), normalized and encoded;
the evaluation stage follows.  A missing image file raises a KeyError
that the outer except turns into a generic error response. -/
noncomputable def match_face (enc : Img → List Emb) (db : DB) (req : MFReq) :
    MFResp × DB :=
  match req.employee_id with
  | none => ({ matched := false, reason := some "missing_user_id" }, db)
  | some eid =>
    match req.image with
    | none => ({ matched := false, error := some "KeyError: image" }, db)
    | some img =>
      match correct_image_orientation img with
      | none =>
        ({ matched := false, reason := some "image_processing_failed" }, db)
      | some nimg =>
        match enc nimg with
        | [] =>
          ({ matched := false, reason := some "no_face_in_uploaded_image" }, db)
        | up :: _ =>
          match get_employee_reference_image db eid with
          | none =>
            ({ matched := false, reason := some "reference_image_missing" }, db)
          | some refdoc =>
            match correct_image_orientation refdoc.content with
            | none =>
              ({ matched := false,
                 reason := some "reference_image_corruption" }, db)
            | some nref =>
              match enc nref with
              | [] =>
                ({ matched := false,
                   reason := some "reference_image_has_no_face" }, db)
              | re :: _ => match_eval_geo db req eid up re

/-! ## Shared helper lemmas -/

lemma sin_half_sub_sq (x y : ℝ) :
    Real.sin ((x - y) / 2) ^ 2 = Real.sin ((y - x) / 2) ^ 2 := by
  rw [show (x - y) / 2 = -((y - x) / 2) by ring, Real.sin_neg, neg_sq]

lemma calculate_distance_symm (lat1 lon1 lat2 lon2 : ℝ) :
    calculate_distance lat1 lon1 lat2 lon2 =
      calculate_distance lat2 lon2 lat1 lon1 := by
  unfold calculate_distance
  rw [sin_half_sub_sq (radians lat2) (radians lat1),
    sin_half_sub_sq (radians lon2) (radians lon1),
    mul_comm (Real.cos (radians lat1)) (Real.cos (radians lat2))]

lemma calculate_distance_self (lat lon : ℝ) :
    calculate_distance lat lon lat lon = 0 := by
  unfold calculate_distance
  simp

lemma face_distance_self (l : Emb) : face_distance l l = 0 := by
  have h : ((l.zip l).map (fun p => (p.1 - p.2) ^ 2)).sum = 0 := by
    induction l with
    | nil => simp
    | cons a t ih => simp [ih]
  simp [face_distance, h]

lemma filter_not_filter {α : Type} (p : α → Bool) (l : List α) :
    (l.filter (fun a => !(p a))).filter p = [] := by
  induction l with
  | nil => rfl
  | cons a t ih =>
    by_cases h : p a <;> simp [List.filter_cons, h, ih]

lemma find_map_flagUpd (l : List Employee) (eid : String) (v : Nat) :
    (l.map (fun e =>
        if e.name == eid then { e with face_registered := v } else e)).find?
      (fun e => e.name == eid) =
      (l.find? (fun e => e.name == eid)).map
        (fun e => { e with face_registered := v }) := by
  induction l with
  | nil => rfl
  | cons a t ih =>
    by_cases h : a.name = eid
    · simp [List.find?_cons, h]
    · have hpa : (a.name == eid) = false := by simp [h]
      rw [List.map_cons, List.find?_cons, List.find?_cons]
      simp only [hpa, Bool.false_eq_true, if_false]
      exact ih

lemma findEmployee_setFaceRegistered (db : DB) (eid : String) (v : Nat) :
    findEmployee (setFaceRegistered db eid v) eid =
      (findEmployee db eid).map (fun e => { e with face_registered := v }) := by
  unfold findEmployee setFaceRegistered
  exact find_map_flagUpd db.employees eid v

lemma attachmentsOf_setFaceRegistered (db : DB) (eid x : String) (v : Nat) :
    attachmentsOf (setFaceRegistered db eid v) x = attachmentsOf db x := rfl

lemma findEmployee_removeAttachments (db : DB) (eid x : String) :
    findEmployee (removeAttachments db eid) x = findEmployee db x := rfl

lemma attachmentsOf_removeAttachments (db : DB) (eid : String) :
    attachmentsOf (removeAttachments db eid) eid = [] := by
  unfold attachmentsOf removeAttachments
  exact filter_not_filter _ _

lemma forceRGB_mode (img : Img) : (forceRGB img).mode = "RGB" := by
  unfold forceRGB
  by_cases h : img.mode = "RGB" <;> simp [h]

lemma forceRGB_width (img : Img) : (forceRGB img).width = img.width := by
  unfold forceRGB
  split <;> rfl

lemma forceRGB_height (img : Img) : (forceRGB img).height = img.height := by
  unfold forceRGB
  split <;> rfl

lemma applyExif_dims_max (img : Img) :
    max (applyExif img).width (applyExif img).height =
      max img.width img.height := by
  unfold applyExif
  split <;> simp [rotateImg, Nat.max_comm]

lemma resizeLarge_max_eq (j : Img) (hj : 1200 < max j.width j.height) :
    max (resizeLarge j).width (resizeLarge j).height = 1200 := by
  have hwle : j.width * 1200 / max j.width j.height ≤ 1200 := by
    calc j.width * 1200 / max j.width j.height
        ≤ max j.width j.height * 1200 / max j.width j.height :=
          Nat.div_le_div_right (Nat.mul_le_mul_right 1200 (le_max_left _ _))
      _ = 1200 := Nat.mul_div_cancel_left 1200 (by omega)
  have hhle : j.height * 1200 / max j.width j.height ≤ 1200 := by
    calc j.height * 1200 / max j.width j.height
        ≤ max j.width j.height * 1200 / max j.width j.height :=
          Nat.div_le_div_right (Nat.mul_le_mul_right 1200 (le_max_right _ _))
      _ = 1200 := Nat.mul_div_cancel_left 1200 (by omega)
  rcases Nat.le_total j.width j.height with hwh | hwh
  · have h2 : max j.width j.height = j.height := max_eq_right hwh
    rw [h2] at hj hwle
    simp only [resizeLarge, h2, hj, if_true]
    rw [Nat.mul_div_cancel_left 1200 (by omega)]
    exact max_eq_right hwle
  · have h2 : max j.width j.height = j.width := max_eq_left hwh
    rw [h2] at hj hhle
    simp only [resizeLarge, h2, hj, if_true]
    rw [Nat.mul_div_cancel_left 1200 (by omega)]
    exact max_eq_left hhle

lemma resizeLarge_max_le (j : Img) :
    max (resizeLarge j).width (resizeLarge j).height ≤
      max (max j.width j.height) 1200 := by
  by_cases hj : 1200 < max j.width j.height
  · rw [resizeLarge_max_eq j hj]
    exact le_max_right _ _
  · have : resizeLarge j = j := by simp [resizeLarge, hj]
    rw [this]
    exact le_max_left _ _

/-- Reduction of match_face to the evaluation stage on the success path
through both encoders. -/
lemma match_face_eval (enc : Img → List Emb) (db : DB) (req : MFReq)
    (eid : String) (img nimg : Img) (up : Emb) (ups : List Emb)
    (refdoc : FileDoc) (nref : Img) (re : Emb) (res2 : List Emb)
    (h1 : req.employee_id = some eid) (h2 : req.image = some img)
    (h3 : correct_image_orientation img = some nimg)
    (h4 : enc nimg = up :: ups)
    (h5 : get_employee_reference_image db eid = some refdoc)
    (h6 : correct_image_orientation refdoc.content = some nref)
    (h7 : enc nref = re :: res2) :
    match_face enc db req = match_eval_geo db req eid up re := by
  simp only [match_face, h1, h2, h3, h4, h5, h6, h7]

/-- Threshold, distance and confidence fields of the evaluation stage,
independent of the geofencing branch taken. -/
lemma match_eval_geo_basic (db : DB) (req : MFReq) (eid : String)
    (up re : Emb) :
    ((match_eval_geo db req eid up re).1.matched = true ↔
        face_distance re up ≤ 1 / 2) ∧
    (match_eval_geo db req eid up re).1.distance =
        some (roundTo 4 (face_distance re up)) ∧
    (match_eval_geo db req eid up re).1.confidence =
        some (roundTo 1 (max 0 (min 100 ((1 - face_distance re up) * 100)))) := by
  unfold match_eval_geo
  by_cases hd : face_distance re up ≤ 1 / 2
  · rw [if_pos hd]
    cases hlat : req.latitude with
    | none => exact ⟨iff_of_true rfl hd, rfl, rfl⟩
    | some lat =>
      cases hlon : req.longitude with
      | none => exact ⟨iff_of_true rfl hd, rfl, rfl⟩
      | some lon =>
        cases hoc : get_office_coordinates db eid with
        | none => exact ⟨iff_of_true rfl hd, rfl, rfl⟩
        | some t =>
          obtain ⟨olat, olon, radius⟩ := t
          by_cases hr : (radius : ℝ) <
              calculate_distance (lat : ℝ) (lon : ℝ) (olat : ℝ) (olon : ℝ)
          · simp only [if_pos hr]
            exact ⟨iff_of_true trivial hd, trivial, trivial⟩
          · simp only [if_neg hr]
            exact ⟨iff_of_true trivial hd, trivial, trivial⟩
  · rw [if_neg hd]
    exact ⟨iff_of_false (by simp) hd, rfl, rfl⟩

/-! ## Concrete fixtures for witnesses and counterexamples -/

/-- A well-formed upright RGB image. -/
def imgOk : Img :=
  { width := 100, height := 100, exif_orientation := none, mode := "RGB",
    rotation := 0, corrupt := false }

/-- An encoder that finds exactly one face with the zero embedding in
every image. -/
def encZero : Img → List Emb := fun _ => [[0]]

/-- An encoder that finds no face in any image. -/
def encNone : Img → List Emb := fun _ => []

/-- A reference image File attached to employee EMP-1. -/
def fdoc0 : FileDoc :=
  { name := "FILE-1", file_name := "ref.jpg",
    attached_to_doctype := "Employee", attached_to_name := "EMP-1",
    content := imgOk }

/-- A registered employee with an office anchor at (1, 2) and no
geofence_radius configured. -/
def emp0 : Employee :=
  { name := "EMP-1", office_latitude := some 1, office_longitude := some 2,
    face_registered := 1 }

/-- Database with EMP-1 registered and one reference attachment. -/
def db0 : DB :=
  { employees := [emp0], files := [fdoc0], checkins := [], shift_types := [],
    next_id := 2 }

/-- Database with EMP-1 present but zero reference attachments. -/
def dbNoRef : DB :=
  { employees := [emp0], files := [], checkins := [], shift_types := [],
    next_id := 2 }

/-- Verification request for EMP-1 without a claimed location. -/
def req0 : MFReq := { employee_id := some "EMP-1", image := some imgOk }

/-- Verification request for EMP-1 claiming to be exactly at the
anchor. -/
def reqAtAnchor : MFReq :=
  { employee_id := some "EMP-1", latitude := some 1, longitude := some 2,
    image := some imgOk }

/-- Registration payload carrying a usable image. -/
def regReq0 : RegReq := { first_name := some "A", image := some imgOk,
                          filename := "a.jpg" }

/-- Update payload for EMP-1 carrying an image. -/
def updReq0 : UpdReq := { employee_id := some "EMP-1", image := some imgOk,
                          filename := "b.jpg" }

/-- An overnight shift 22:00:00 to 06:00:00. -/
def shNight : ShiftType :=
  { is_night_shift := true, start_time := some ⟨22, 0, 0⟩,
    end_time := some ⟨6, 0, 0⟩ }

/-- An employee on the overnight shift. -/
def empNight : Employee := { name := "EMP-2", shift := some "Night Shift" }

/-- Database for the overnight-shift example. -/
def dbNight : DB :=
  { employees := [empNight], files := [], checkins := [],
    shift_types := [("Night Shift", shNight)], next_id := 1 }

/-- An employee whose stored anchor latitude is exactly 0. -/
def empZeroLat : Employee :=
  { name := "EMP-3", office_latitude := some 0, office_longitude := some 2,
    geofence_radius := some 1, face_registered := 1 }

/-- A reference image File attached to EMP-3. -/
def fdocZ : FileDoc :=
  { name := "FILE-2", file_name := "refz.jpg",
    attached_to_doctype := "Employee", attached_to_name := "EMP-3",
    content := imgOk }

/-- Database with EMP-3 registered (anchor latitude 0). -/
def dbZeroLat : DB :=
  { employees := [empZeroLat], files := [fdocZ], checkins := [],
    shift_types := [], next_id := 3 }

/-- Verification request for EMP-3 with a claimed location. -/
def reqZ : MFReq :=
  { employee_id := some "EMP-3", latitude := some 5, longitude := some 6,
    image := some imgOk }

/-- A large rotated non-RGB capture, for the normalization witness. -/
def imgBig : Img :=
  { width := 2400, height := 1000, exif_orientation := some 6, mode := "L",
    rotation := 0, corrupt := false }

/-! ## Claim theorems -/

/-- C7: the geofence distance function calculate_distance is the
haversine great-circle formula on a sphere of radius 6371 km; for all
coordinate pairs it is symmetric, and the distance from any point to
itself is 0. -/
theorem c7_haversine_symmetric_and_self_zero :
    (∀ lat1 lon1 lat2 lon2 : ℝ,
        calculate_distance lat1 lon1 lat2 lon2 =
          calculate_distance lat2 lon2 lat1 lon1) ∧
    (∀ lat lon : ℝ, calculate_distance lat lon lat lon = 0) :=
  ⟨calculate_distance_symm, calculate_distance_self⟩

/-- C6: shift window resolution.  An identity with no configured shift
resolves to the (date 09:00:00, date 18:00:00) default window; a shift
flagged as a night shift, or whose end time-of-day is earlier than its
start time-of-day, anchors the end timestamp to date + 1 day; otherwise
both endpoints fall on the given date.  In particular, no shift on
2025-06-17 resolves to (2025-06-17 09:00, 2025-06-17 18:00), and the
overnight 22:00/06:00 shift on 2025-06-17 resolves to
(2025-06-17 22:00, 2025-06-18 06:00). -/
theorem c6_shift_window_resolution :
    (∀ (db : DB) (eid : String) (date : Date),
        (findEmployee db eid).bind (fun e => e.shift) = none →
        get_shift_time_range db eid date =
          some ((date, ⟨9, 0, 0⟩), (date, ⟨18, 0, 0⟩))) ∧
    (∀ (db : DB) (eid : String) (date : Date) (sname : String) (sh : ShiftType),
        (findEmployee db eid).bind (fun e => e.shift) = some sname →
        db.shift_types.find? (fun p => p.1 == sname) = some (sname, sh) →
        (sh.is_night_shift = true ∨
          (sh.end_time.getD ⟨18, 0, 0⟩).toSecs <
            (sh.start_time.getD ⟨9, 0, 0⟩).toSecs) →
        get_shift_time_range db eid date =
          some ((date, sh.start_time.getD ⟨9, 0, 0⟩),
                (nextDay date, sh.end_time.getD ⟨18, 0, 0⟩))) ∧
    (∀ (db : DB) (eid : String) (date : Date) (sname : String) (sh : ShiftType),
        (findEmployee db eid).bind (fun e => e.shift) = some sname →
        db.shift_types.find? (fun p => p.1 == sname) = some (sname, sh) →
        sh.is_night_shift = false →
        ¬ (sh.end_time.getD ⟨18, 0, 0⟩).toSecs <
            (sh.start_time.getD ⟨9, 0, 0⟩).toSecs →
        get_shift_time_range db eid date =
          some ((date, sh.start_time.getD ⟨9, 0, 0⟩),
                (date, sh.end_time.getD ⟨18, 0, 0⟩))) ∧
    get_shift_time_range db0 "EMP-1" ⟨2025, 6, 17⟩ =
      some ((⟨2025, 6, 17⟩, ⟨9, 0, 0⟩), (⟨2025, 6, 17⟩, ⟨18, 0, 0⟩)) ∧
    get_shift_time_range dbNight "EMP-2" ⟨2025, 6, 17⟩ =
      some ((⟨2025, 6, 17⟩, ⟨22, 0, 0⟩), (⟨2025, 6, 18⟩, ⟨6, 0, 0⟩)) := by
  refine ⟨?_, ?_, ?_, ?_, ?_⟩
  · intro db eid date h
    unfold get_shift_time_range
    rw [h]
  · intro db eid date sname sh h hf hnight
    rcases hnight with hn | hlt
    · simp [get_shift_time_range, h, hf, hn]
    · simp [get_shift_time_range, h, hf, hlt]
  · intro db eid date sname sh h hf hn hlt
    simp [get_shift_time_range, h, hf, hn, hlt]
  · decide
  · decide

/-- C6 witness: the no-shift conjunct instantiated on the concrete
database db0 and date 2025-06-17. -/
theorem c6_shift_window_witness :
    get_shift_time_range db0 "EMP-1" ⟨2025, 6, 17⟩ =
      some ((⟨2025, 6, 17⟩, ⟨9, 0, 0⟩), (⟨2025, 6, 17⟩, ⟨18, 0, 0⟩)) :=
  c6_shift_window_resolution.1 db0 "EMP-1" ⟨2025, 6, 17⟩ (by decide)

/-- C9: EXIF normalization rotates per the canonical table (code 3 by
180 degrees, 6 by 270, 8 by 90); whenever the longer dimension exceeds
1200 px the image is downscaled proportionally so that the longer
dimension becomes (exactly, hence at most) 1200 px; the result is forced
to RGB, and the longer dimension never exceeds max(original, 1200). -/
theorem c9_normalization (img : Img) (hc : img.corrupt = false) :
    correct_image_orientation img =
      some (forceRGB (resizeLarge (applyExif img))) ∧
    (img.exif_orientation = some 3 →
      (applyExif img).rotation = (img.rotation + 180) % 360 ∧
      (applyExif img).width = img.width ∧
      (applyExif img).height = img.height) ∧
    (img.exif_orientation = some 6 →
      (applyExif img).rotation = (img.rotation + 270) % 360 ∧
      (applyExif img).width = img.height ∧
      (applyExif img).height = img.width) ∧
    (img.exif_orientation = some 8 →
      (applyExif img).rotation = (img.rotation + 90) % 360 ∧
      (applyExif img).width = img.height ∧
      (applyExif img).height = img.width) ∧
    (∀ j : Img, 1200 < max j.width j.height →
      (resizeLarge j).width = j.width * 1200 / max j.width j.height ∧
      (resizeLarge j).height = j.height * 1200 / max j.width j.height ∧
      max (resizeLarge j).width (resizeLarge j).height = 1200) ∧
    (∀ o : Img, correct_image_orientation img = some o →
      o.mode = "RGB" ∧
      max o.width o.height ≤ max (max img.width img.height) 1200) := by
  refine ⟨?_, ?_, ?_, ?_, ?_, ?_⟩
  · simp [correct_image_orientation, hc]
  · intro h3
    simp [applyExif, h3, rotateImg]
  · intro h6
    simp [applyExif, h6, rotateImg]
  · intro h8
    simp [applyExif, h8, rotateImg]
  · intro j hj
    refine ⟨?_, ?_, resizeLarge_max_eq j hj⟩
    · simp [resizeLarge, hj]
    · simp [resizeLarge, hj]
  · intro o ho
    have hval : o = forceRGB (resizeLarge (applyExif img)) := by
      rw [correct_image_orientation, if_neg (by simp [hc])] at ho
      exact (Option.some.inj ho).symm
    subst hval
    refine ⟨forceRGB_mode _, ?_⟩
    rw [forceRGB_width, forceRGB_height]
    calc max (resizeLarge (applyExif img)).width
          (resizeLarge (applyExif img)).height
        ≤ max (max (applyExif img).width (applyExif img).height) 1200 :=
          resizeLarge_max_le _
      _ = max (max img.width img.height) 1200 := by
          rw [applyExif_dims_max]

/-- C9 witness: the normalization theorem instantiated on a concrete
2400 x 1000, EXIF-6, grayscale capture. -/
theorem c9_normalization_witness :
    correct_image_orientation imgBig =
      some (forceRGB (resizeLarge (applyExif imgBig))) ∧
    (imgBig.exif_orientation = some 3 →
      (applyExif imgBig).rotation = (imgBig.rotation + 180) % 360 ∧
      (applyExif imgBig).width = imgBig.width ∧
      (applyExif imgBig).height = imgBig.height) ∧
    (imgBig.exif_orientation = some 6 →
      (applyExif imgBig).rotation = (imgBig.rotation + 270) % 360 ∧
      (applyExif imgBig).width = imgBig.height ∧
      (applyExif imgBig).height = imgBig.width) ∧
    (imgBig.exif_orientation = some 8 →
      (applyExif imgBig).rotation = (imgBig.rotation + 90) % 360 ∧
      (applyExif imgBig).width = imgBig.height ∧
      (applyExif imgBig).height = imgBig.width) ∧
    (∀ j : Img, 1200 < max j.width j.height →
      (resizeLarge j).width = j.width * 1200 / max j.width j.height ∧
      (resizeLarge j).height = j.height * 1200 / max j.width j.height ∧
      max (resizeLarge j).width (resizeLarge j).height = 1200) ∧
    (∀ o : Img, correct_image_orientation imgBig = some o →
      o.mode = "RGB" ∧
      max o.width o.height ≤ max (max imgBig.width imgBig.height) 1200) :=
  c9_normalization imgBig rfl

/-- C8: reset is idempotent for every existing identity: both calls
return success, the second call reports the no-attachments-found
variant, and after either call the registered flag is cleared and the
identity has zero reference attachments. -/
theorem c8_reset_idempotent (db : DB) (eid : String) (e : Employee)
    (he : findEmployee db eid = some e) :
    (reset_face_registration db eid).1.1 = "success" ∧
    (reset_face_registration (reset_face_registration db eid).2 eid).1 =
      ("success", "reset_but_no_attachments_found") ∧
    (∀ e1, findEmployee (reset_face_registration db eid).2 eid = some e1 →
      e1.face_registered = 0) ∧
    (∀ e2,
      findEmployee
        (reset_face_registration (reset_face_registration db eid).2 eid).2
        eid = some e2 →
      e2.face_registered = 0) ∧
    attachmentsOf (reset_face_registration db eid).2 eid = [] ∧
    attachmentsOf
      (reset_face_registration (reset_face_registration db eid).2 eid).2
      eid = [] := by
  have f1 : findEmployee (setFaceRegistered db eid 0) eid =
      some { e with face_registered := 0 } := by
    rw [findEmployee_setFaceRegistered, he]
    rfl
  by_cases hat : (attachmentsOf db eid).isEmpty
  · have hr1 : reset_face_registration db eid =
        (("success", "reset_but_no_attachments_found"),
          setFaceRegistered db eid 0) := by
      simp [reset_face_registration, he, hat]
    have hat1 : (attachmentsOf (setFaceRegistered db eid 0) eid).isEmpty := by
      rw [attachmentsOf_setFaceRegistered]
      exact hat
    have hr2 : reset_face_registration (setFaceRegistered db eid 0) eid =
        (("success", "reset_but_no_attachments_found"),
          setFaceRegistered (setFaceRegistered db eid 0) eid 0) := by
      simp [reset_face_registration, f1, hat1]
    have hattnil : attachmentsOf db eid = [] := by
      cases hl : attachmentsOf db eid with
      | nil => rfl
      | cons a t => rw [hl] at hat; exact absurd hat (by simp)
    simp only [hr1, hr2]
    refine ⟨trivial, trivial, ?_, ?_, ?_, ?_⟩
    · intro e1 h1
      rw [f1] at h1
      cases Option.some.inj h1
      rfl
    · intro e2 h2
      rw [findEmployee_setFaceRegistered, f1] at h2
      cases Option.some.inj h2
      rfl
    · rw [attachmentsOf_setFaceRegistered]
      exact hattnil
    · rw [attachmentsOf_setFaceRegistered, attachmentsOf_setFaceRegistered]
      exact hattnil
  · have hr1 : reset_face_registration db eid =
        (("success", "face_registration_reset_successfully"),
          removeAttachments (setFaceRegistered db eid 0) eid) := by
      simp [reset_face_registration, he, hat]
    have f2 : findEmployee
        (removeAttachments (setFaceRegistered db eid 0) eid) eid =
        some { e with face_registered := 0 } := by
      rw [findEmployee_removeAttachments, f1]
    have hat1 : (attachmentsOf
        (removeAttachments (setFaceRegistered db eid 0) eid) eid).isEmpty := by
      rw [attachmentsOf_removeAttachments]
      rfl
    have hr2 : reset_face_registration
        (removeAttachments (setFaceRegistered db eid 0) eid) eid =
        (("success", "reset_but_no_attachments_found"),
          setFaceRegistered
            (removeAttachments (setFaceRegistered db eid 0) eid) eid 0) := by
      simp [reset_face_registration, f2, hat1]
    simp only [hr1, hr2]
    refine ⟨trivial, trivial, ?_, ?_, ?_, ?_⟩
    · intro e1 h1
      rw [f2] at h1
      cases Option.some.inj h1
      rfl
    · intro e2 h2
      rw [findEmployee_setFaceRegistered, f2] at h2
      cases Option.some.inj h2
      rfl
    · exact attachmentsOf_removeAttachments _ _
    · rw [attachmentsOf_setFaceRegistered]
      exact attachmentsOf_removeAttachments _ _

/-- C8 witness: reset twice on the concrete database db0 that holds a
registered EMP-1 with one attachment. -/
theorem c8_reset_idempotent_witness :
    (reset_face_registration db0 "EMP-1").1.1 = "success" ∧
    (reset_face_registration (reset_face_registration db0 "EMP-1").2
      "EMP-1").1 = ("success", "reset_but_no_attachments_found") ∧
    (∀ e1, findEmployee (reset_face_registration db0 "EMP-1").2 "EMP-1" =
        some e1 → e1.face_registered = 0) ∧
    (∀ e2,
      findEmployee
        (reset_face_registration (reset_face_registration db0 "EMP-1").2
          "EMP-1").2 "EMP-1" = some e2 →
      e2.face_registered = 0) ∧
    attachmentsOf (reset_face_registration db0 "EMP-1").2 "EMP-1" = [] ∧
    attachmentsOf
      (reset_face_registration (reset_face_registration db0 "EMP-1").2
        "EMP-1").2 "EMP-1" = [] :=
  c8_reset_idempotent db0 "EMP-1" emp0 (by decide)

/-- C1: on every verification that reaches the match evaluation, the
response reports matched = true exactly when the Euclidean embedding
distance d is at most 0.5, the outward-facing distance is d rounded to 4
decimal places, and the outward-facing confidence is
clamp(0, 100, (1 - d) * 100) rounded to 1 decimal place. -/
theorem c1_match_evaluation (enc : Img → List Emb) (db : DB) (req : MFReq)
    (eid : String) (img nimg : Img) (up : Emb) (ups : List Emb)
    (refdoc : FileDoc) (nref : Img) (re : Emb) (res2 : List Emb)
    (h1 : req.employee_id = some eid) (h2 : req.image = some img)
    (h3 : correct_image_orientation img = some nimg)
    (h4 : enc nimg = up :: ups)
    (h5 : get_employee_reference_image db eid = some refdoc)
    (h6 : correct_image_orientation refdoc.content = some nref)
    (h7 : enc nref = re :: res2) :
    ((match_face enc db req).1.matched = true ↔
        face_distance re up ≤ 1 / 2) ∧
    (match_face enc db req).1.distance =
        some (roundTo 4 (face_distance re up)) ∧
    (match_face enc db req).1.confidence =
        some (roundTo 1
          (max 0 (min 100 ((1 - face_distance re up) * 100)))) := by
  rw [match_face_eval enc db req eid img nimg up ups refdoc nref re res2
    h1 h2 h3 h4 h5 h6 h7]
  exact match_eval_geo_basic db req eid up re

/-- C1 witness: the evaluation theorem on the concrete database db0 with
an encoder giving the zero embedding to both images (distance 0). -/
theorem c1_match_evaluation_witness :
    (((match_face encZero db0 req0).1.matched = true ↔
        face_distance [0] [0] ≤ 1 / 2) ∧
      (match_face encZero db0 req0).1.distance =
        some (roundTo 4 (face_distance [0] [0])) ∧
      (match_face encZero db0 req0).1.confidence =
        some (roundTo 1
          (max 0 (min 100 ((1 - face_distance [0] [0]) * 100))))) :=
  c1_match_evaluation encZero db0 req0 "EMP-1" imgOk imgOk [0] [] fdoc0
    imgOk [0] [] rfl rfl rfl rfl (by decide) rfl rfl

/-- C2 counterexample: the claim says a second register on an
already-registered identity returns AlreadyRegistered and creates no new
records.  On db0, whose EMP-1 already has a current reference image,
register returns success and creates a new identity record and a new
reference image. -/
theorem c2_register_counterexample :
    (register_face encZero db0 regReq0).1 = .str "success" ∧
    (register_face encZero db0 regReq0).1 ≠ .str "already_registered" ∧
    (register_face encZero db0 regReq0).2.employees.length =
      db0.employees.length + 1 ∧
    (register_face encZero db0 regReq0).2.files.length =
      db0.files.length + 1 := by
  refine ⟨rfl, by decide, rfl, rfl⟩

/-- C2 as amended: register never checks for prior registration (the
guard is commented out in the source): every call whose image
normalizes and contains a face returns success and appends one
brand-new identity record and one new reference image, leaving every
pre-existing employee record and reference image unmodified. -/
theorem c2_register_always_creates (enc : Img → List Emb) (db : DB)
    (req : RegReq) (img nimg : Img) (emb : Emb) (es : List Emb)
    (h1 : req.image = some img)
    (h2 : correct_image_orientation img = some nimg)
    (h3 : enc nimg = emb :: es) :
    (register_face enc db req).1 = .str "success" ∧
    (∃ emp, (register_face enc db req).2.employees =
        db.employees ++ [emp]) ∧
    (∃ fdoc, (register_face enc db req).2.files = db.files ++ [fdoc]) := by
  simp only [register_face, h1, h2, h3, List.isEmpty_cons,
    Bool.false_eq_true, if_false]
  exact ⟨trivial, ⟨_, rfl⟩, ⟨_, rfl⟩⟩

/-- C2 witness: the amended register theorem on the concrete
already-registered database db0. -/
theorem c2_register_always_creates_witness :
    (register_face encZero db0 regReq0).1 = .str "success" ∧
    (∃ emp, (register_face encZero db0 regReq0).2.employees =
        db0.employees ++ [emp]) ∧
    (∃ fdoc, (register_face encZero db0 regReq0).2.files =
        db0.files ++ [fdoc]) :=
  c2_register_always_creates encZero db0 regReq0 imgOk imgOk [0] []
    rfl rfl rfl

/-- C3: update on an identity with an existing reference image, given an
image in which no face is detected, returns no_face_detected and leaves
the whole stored state - in particular the prior reference image and its
bytes - unchanged; the old reference is still the current one
afterwards. -/
theorem c3_update_no_face_preserves_reference (enc : Img → List Emb)
    (db : DB) (req : UpdReq) (eid : String) (refdoc : FileDoc)
    (img nimg : Img)
    (h1 : req.employee_id = some eid)
    (h2 : get_employee_reference_image db eid = some refdoc)
    (h3 : req.image = some img)
    (h4 : correct_image_orientation img = some nimg)
    (h5 : enc nimg = []) :
    update_face enc db req = (.str "no_face_detected", db) ∧
    get_employee_reference_image (update_face enc db req).2 eid =
      some refdoc := by
  have hmain : update_face enc db req = (.str "no_face_detected", db) := by
    simp only [update_face, h1, h2, h3, h4, h5, List.isEmpty_nil, if_true]
  refine ⟨hmain, ?_⟩
  rw [hmain]
  exact h2

/-- C3 witness: a no-face update against the concrete database db0 with
the face-less encoder. -/
theorem c3_update_no_face_witness :
    update_face encNone db0 updReq0 = (.str "no_face_detected", db0) ∧
    get_employee_reference_image (update_face encNone db0 updReq0).2
      "EMP-1" = some fdoc0 :=
  c3_update_no_face_preserves_reference encNone db0 updReq0 "EMP-1" fdoc0
    imgOk imgOk rfl (by decide) rfl rfl rfl

/-- C4 counterexample: the claim says verification against an identity
with zero reference images always returns reference_image_missing and
that the captured image face count never determines the outcome.  On
dbNoRef (EMP-1 exists, zero attachments) with a captured image in which
no face is detected, match_face returns no_face_in_uploaded_image
instead: the captured image is encoded before the reference check. -/
theorem c4_short_circuit_counterexample :
    attachmentsOf dbNoRef "EMP-1" = [] ∧
    (match_face encNone dbNoRef req0).1.reason =
      some "no_face_in_uploaded_image" ∧
    (match_face encNone dbNoRef req0).1.reason ≠
      some "reference_image_missing" := by
  have h : (match_face encNone dbNoRef req0).1.reason =
      some "no_face_in_uploaded_image" := rfl
  refine ⟨rfl, h, ?_⟩
  rw [h]
  decide

/-- C4 as amended: match_face normalizes and encodes the captured image
before checking reference existence.  For an identity with zero
reference images, verify returns reference_image_missing (with the state
unchanged) only when the captured image encodes to at least one face;
when the captured image has no detectable face the result is
no_face_in_uploaded_image, so the captured image face count does
determine the outcome in that case. -/
theorem c4_reference_missing_after_capture_encoding
    (enc : Img → List Emb) (db : DB) (req : MFReq) (eid : String)
    (img nimg : Img)
    (h1 : req.employee_id = some eid) (h2 : req.image = some img)
    (h3 : correct_image_orientation img = some nimg)
    (h5 : get_employee_reference_image db eid = none) :
    (∀ up ups, enc nimg = up :: ups →
      match_face enc db req =
        ({ matched := false, reason := some "reference_image_missing" },
          db)) ∧
    (enc nimg = [] →
      match_face enc db req =
        ({ matched := false, reason := some "no_face_in_uploaded_image" },
          db)) := by
  constructor
  · intro up ups h4
    simp only [match_face, h1, h2, h3, h4, h5]
  · intro h4
    simp only [match_face, h1, h2, h3, h4]

/-- C4 witness: the amended theorem applied on dbNoRef with an encoder
that does find a face in the captured image. -/
theorem c4_reference_missing_witness :
    match_face encZero dbNoRef req0 =
      ({ matched := false, reason := some "reference_image_missing" },
        dbNoRef) :=
  (c4_reference_missing_after_capture_encoding encZero dbNoRef req0
    "EMP-1" imgOk imgOk rfl rfl rfl (by decide)).1 [0] [] rfl

/-- C5: on every matched verification with a supplied claimed location
and a configured anchor, the check-in is saved (and exactly one checkin
record appended) if and only if the haversine distance from the anchor
is at most the geofence radius, so the boundary distance = radius
counts as within; outside the radius the response still reports
matched = true with the check-in not saved and the distance from the
office reported; and the radius used is 0.5 km whenever geofence_radius
is unset on the identity. -/
theorem c5_geofence_checkin (enc : Img → List Emb) (db : DB) (req : MFReq)
    (eid : String) (img nimg : Img) (up : Emb) (ups : List Emb)
    (refdoc : FileDoc) (nref : Img) (re : Emb) (res2 : List Emb)
    (lat lon olat olon radius : ℚ)
    (h1 : req.employee_id = some eid) (h2 : req.image = some img)
    (h3 : correct_image_orientation img = some nimg)
    (h4 : enc nimg = up :: ups)
    (h5 : get_employee_reference_image db eid = some refdoc)
    (h6 : correct_image_orientation refdoc.content = some nref)
    (h7 : enc nref = re :: res2)
    (hm : face_distance re up ≤ 1 / 2)
    (hlat : req.latitude = some lat) (hlon : req.longitude = some lon)
    (hoc : get_office_coordinates db eid = some (olat, olon, radius)) :
    ((match_face enc db req).1.checkin_saved = some true ↔
      calculate_distance (lat : ℝ) (lon : ℝ) (olat : ℝ) (olon : ℝ) ≤
        (radius : ℝ)) ∧
    ((match_face enc db req).2.checkins.length = db.checkins.length + 1 ↔
      calculate_distance (lat : ℝ) (lon : ℝ) (olat : ℝ) (olon : ℝ) ≤
        (radius : ℝ)) ∧
    ((radius : ℝ) <
        calculate_distance (lat : ℝ) (lon : ℝ) (olat : ℝ) (olon : ℝ) →
      (match_face enc db req).1.matched = true ∧
      (match_face enc db req).1.checkin_saved = some false ∧
      (match_face enc db req).1.error = some "outside_geofence_radius" ∧
      (match_face enc db req).1.distance_from_office =
        some (roundTo 3
          (calculate_distance (lat : ℝ) (lon : ℝ) (olat : ℝ) (olon : ℝ))) ∧
      (match_face enc db req).2 = db) ∧
    (calculate_distance (lat : ℝ) (lon : ℝ) (olat : ℝ) (olon : ℝ) ≤
        (radius : ℝ) →
      (match_face enc db req).1.matched = true ∧
      (match_face enc db req).1.distance_from_office =
        some (roundTo 3
          (calculate_distance (lat : ℝ) (lon : ℝ) (olat : ℝ) (olon : ℝ)))) ∧
    (∀ e : Employee, findEmployee db eid = some e →
      e.geofence_radius = none → radius = 1 / 2) := by
  have hrad : ∀ e : Employee, findEmployee db eid = some e →
      e.geofence_radius = none → radius = 1 / 2 := by
    intro e hfe hge
    have hoc2 := hoc
    simp only [get_office_coordinates, hfe, hge, Option.getD_none] at hoc2
    split at hoc2
    · cases hoc2
    · simp only [Option.some.injEq, Prod.mk.injEq] at hoc2
      exact hoc2.2.2.symm
  rw [match_face_eval enc db req eid img nimg up ups refdoc nref re res2
    h1 h2 h3 h4 h5 h6 h7]
  unfold match_eval_geo
  rw [if_pos hm]
  simp only [hlat, hlon, hoc]
  by_cases hr : (radius : ℝ) <
      calculate_distance (lat : ℝ) (lon : ℝ) (olat : ℝ) (olon : ℝ)
  · rw [if_pos hr]
    refine ⟨iff_of_false (by simp) (not_le.mpr hr),
      iff_of_false (by simp) (not_le.mpr hr), ?_, ?_, hrad⟩
    · intro _
      exact ⟨rfl, rfl, rfl, rfl, rfl⟩
    · intro hle
      exact absurd hle (not_le.mpr hr)
  · rw [if_neg hr]
    have hle : calculate_distance (lat : ℝ) (lon : ℝ) (olat : ℝ) (olon : ℝ) ≤
        (radius : ℝ) := not_lt.mp hr
    refine ⟨iff_of_true rfl hle, iff_of_true (by simp) hle, ?_, ?_, hrad⟩
    · intro hgt
      exact absurd hgt hr
    · intro _
      exact ⟨rfl, rfl⟩

/-- C5 witness: a matched verification for EMP-1 (anchor (1, 2), radius
unset hence 0.5) claiming to stand exactly at the anchor, so the
haversine distance is 0 and the check-in is saved. -/
theorem c5_geofence_checkin_witness :
    ((match_face encZero db0 reqAtAnchor).1.checkin_saved = some true ↔
      calculate_distance ((1 : ℚ) : ℝ) ((2 : ℚ) : ℝ) ((1 : ℚ) : ℝ)
        ((2 : ℚ) : ℝ) ≤ (((1 : ℚ) / 2 : ℚ) : ℝ)) ∧
    ((match_face encZero db0 reqAtAnchor).2.checkins.length =
        db0.checkins.length + 1 ↔
      calculate_distance ((1 : ℚ) : ℝ) ((2 : ℚ) : ℝ) ((1 : ℚ) : ℝ)
        ((2 : ℚ) : ℝ) ≤ (((1 : ℚ) / 2 : ℚ) : ℝ)) ∧
    ((((1 : ℚ) / 2 : ℚ) : ℝ) <
        calculate_distance ((1 : ℚ) : ℝ) ((2 : ℚ) : ℝ) ((1 : ℚ) : ℝ)
          ((2 : ℚ) : ℝ) →
      (match_face encZero db0 reqAtAnchor).1.matched = true ∧
      (match_face encZero db0 reqAtAnchor).1.checkin_saved = some false ∧
      (match_face encZero db0 reqAtAnchor).1.error =
        some "outside_geofence_radius" ∧
      (match_face encZero db0 reqAtAnchor).1.distance_from_office =
        some (roundTo 3
          (calculate_distance ((1 : ℚ) : ℝ) ((2 : ℚ) : ℝ) ((1 : ℚ) : ℝ)
            ((2 : ℚ) : ℝ))) ∧
      (match_face encZero db0 reqAtAnchor).2 = db0) ∧
    (calculate_distance ((1 : ℚ) : ℝ) ((2 : ℚ) : ℝ) ((1 : ℚ) : ℝ)
        ((2 : ℚ) : ℝ) ≤ (((1 : ℚ) / 2 : ℚ) : ℝ) →
      (match_face encZero db0 reqAtAnchor).1.matched = true ∧
      (match_face encZero db0 reqAtAnchor).1.distance_from_office =
        some (roundTo 3
          (calculate_distance ((1 : ℚ) : ℝ) ((2 : ℚ) : ℝ) ((1 : ℚ) : ℝ)
            ((2 : ℚ) : ℝ)))) ∧
    (∀ e : Employee, findEmployee db0 "EMP-1" = some e →
      e.geofence_radius = none → (1 : ℚ) / 2 = 1 / 2) :=
  c5_geofence_checkin encZero db0 reqAtAnchor "EMP-1" imgOk imgOk
    [0] [] fdoc0 imgOk [0] [] 1 2 1 2 (1 / 2)
    rfl rfl rfl rfl (by decide) rfl rfl
    (by rw [face_distance_self]; norm_num) rfl rfl rfl

/-- C10: on a matched verification with a supplied claimed location, a
stored anchor latitude equal to 0 or anchor longitude equal to 0 (both
Python-falsy) makes get_office_coordinates treat the anchor as not
configured: the response reports matched = true with the check-in not
saved and the office_coordinates_not_set condition, no
distance_from_office is reported, and the state is unchanged, so no
geofence distance is ever computed. -/
theorem c10_zero_anchor_not_configured (enc : Img → List Emb) (db : DB)
    (req : MFReq) (eid : String) (img nimg : Img) (up : Emb)
    (ups : List Emb) (refdoc : FileDoc) (nref : Img) (re : Emb)
    (res2 : List Emb) (lat lon : ℚ)
    (h1 : req.employee_id = some eid) (h2 : req.image = some img)
    (h3 : correct_image_orientation img = some nimg)
    (h4 : enc nimg = up :: ups)
    (h5 : get_employee_reference_image db eid = some refdoc)
    (h6 : correct_image_orientation refdoc.content = some nref)
    (h7 : enc nref = re :: res2)
    (hm : face_distance re up ≤ 1 / 2)
    (hlat : req.latitude = some lat) (hlon : req.longitude = some lon)
    (e : Employee) (hfe : findEmployee db eid = some e)
    (hz : e.office_latitude = some 0 ∨ e.office_longitude = some 0) :
    match_face enc db req =
      ({ matched := true,
         distance := some (roundTo 4 (face_distance re up)),
         confidence :=
           some (roundTo 1
             (max 0 (min 100 ((1 - face_distance re up) * 100)))),
         checkin_saved := some false,
         error := some "office_coordinates_not_set" }, db) := by
  have hoc : get_office_coordinates db eid = none := by
    simp only [get_office_coordinates, hfe]
    rcases hz with h | h
    · simp [falsyNum, h]
    · simp [falsyNum, h]
  rw [match_face_eval enc db req eid img nimg up ups refdoc nref re res2
    h1 h2 h3 h4 h5 h6 h7]
  unfold match_eval_geo
  rw [if_pos hm]
  simp only [hlat, hlon, hoc]

/-- C10 witness: EMP-3 has anchor latitude exactly 0; a matched
verification with a claimed location reports
office_coordinates_not_set and saves nothing. -/
theorem c10_zero_anchor_witness :
    match_face encZero dbZeroLat reqZ =
      ({ matched := true,
         distance := some (roundTo 4 (face_distance [0] [0])),
         confidence :=
           some (roundTo 1
             (max 0 (min 100 ((1 - face_distance [0] [0]) * 100)))),
         checkin_saved := some false,
         error := some "office_coordinates_not_set" }, dbZeroLat) :=
  c10_zero_anchor_not_configured encZero dbZeroLat reqZ "EMP-3" imgOk
    imgOk [0] [] fdocZ imgOk [0] [] 5 6 rfl rfl rfl rfl (by decide) rfl
    rfl (by rw [face_distance_self]; norm_num) rfl rfl empZeroLat
    (by decide) (Or.inl rfl)

end FaceAuth
